import Mathlib

/-!
# DBguardian: verification of the scheduling and backup-execution core

Shallow embedding of the Python sources `app/scheduler.py`, `app/tasks.py`
and `app/routes/backups.py` of the DBguardian repository, together with
theorems settling the frozen specification claims.

External collaborators (the Celery queue, psycopg2, MinIO client, Fernet
cipher, PBKDF2) are modelled as parameters or outcome values, following the
specification section that declares them external contracts.
-/

namespace DBguardian

/-! ## Generic helpers: decimal representation of naturals

The scheduler keys its trigger dictionary by the Python f-string
`f"backup_schedule_{id}"`; reasoning about that dictionary needs
injectivity of the decimal representation `Nat.repr`.
-/

/-- Strict comparison of characters by code point. -/
def charLt (a b : Char) : Bool := a.toNat < b.toNat

/-- Lexicographic strict comparison of character lists (Python string `<`). -/
def lexLt : List Char → List Char → Bool
  | [], [] => false
  | [], _ :: _ => true
  | _ :: _, [] => false
  | a :: as, b :: bs =>
    if charLt a b then true
    else if charLt b a then false
    else lexLt as bs

/-- Python tuple comparison on pairs of strings (used as a sort key). -/
def pairLt (a b : String × String) : Bool :=
  if lexLt a.1.data b.1.data then true
  else if lexLt b.1.data a.1.data then false
  else lexLt a.2.data b.2.data

/-! ## Python string helpers -/

/-- Split a character list at every separator, keeping empty pieces
(the behaviour of Python `str.split(sep)`). -/
def splitChars (p : Char → Bool) : List Char → List (List Char)
  | [] => [[]]
  | c :: rest =>
    if p c then [] :: splitChars p rest
    else
      match splitChars p rest with
      | [] => [[c]]
      | g :: gs => (c :: g) :: gs

/-- Python `str.split(sep)` for a single-character separator. -/
def pySplitChar (sep : Char) (s : String) : List String :=
  (splitChars (fun c => c = sep) s.data).map String.mk

/-- Python `str.split()` with no separator: split on whitespace runs,
dropping empty pieces. -/
def pySplitWs (s : String) : List String :=
  ((splitChars (fun c => c.isWhitespace) s.data).map String.mk).filter (fun t => t ≠ "")

/-- Python `str.endswith(suffix)`. -/
def pyEndsWith (s suffix : String) : Bool :=
  suffix.data.isSuffixOf s.data

/-- Python `str.startswith(p)`. -/
def pyStartsWith (s p : String) : Bool :=
  p.data.isPrefixOf s.data

/-- Python `os.path.join(a, b)` for POSIX paths (the only form the code uses). -/
def pyJoin (a b : String) : String :=
  if pyStartsWith b "/" then b
  else if a = "" ∨ pyEndsWith a "/" then a ++ b
  else a ++ "/" ++ b

/-- Python `s.replace(".enc", "")`: remove every non-overlapping occurrence
of `.enc`, scanning left to right (used by `decrypt_file`). -/
def removeEnc : List Char → List Char
  | '.' :: 'e' :: 'n' :: 'c' :: rest => removeEnc rest
  | c :: rest => c :: removeEnc rest
  | [] => []

/-! ## Python integer literals

`parse_cron_expression` converts each non-wildcard field with Python
`int(value)`, which accepts an optional sign and ASCII digits with single
underscores between digits, and raises `ValueError` with a message naming the
offending token otherwise.  (Tokens come from `str.split()`, so the
surrounding whitespace that `int` would also strip cannot occur; unicode
digits are outside this model.) -/

/-- Digit groups after the first digit: digits with single `_` between them. -/
def validTail : List Char → Bool
  | [] => true
  | '_' :: [] => false
  | '_' :: d :: r => d.isDigit && validTail r
  | c :: r => c.isDigit && validTail r

/-- Non-empty digit sequence with single underscores between digits. -/
def validDigits : List Char → Bool
  | [] => false
  | c :: r => c.isDigit && validTail r

/-- Whether Python `int(s)` accepts the token. -/
def pyIntValid (cs : List Char) : Bool :=
  match cs with
  | '+' :: rest => validDigits rest
  | '-' :: rest => validDigits rest
  | _ => validDigits cs

/-- Value of the digit part, underscores skipped. -/
def digitsVal (cs : List Char) : Int :=
  (cs.filter (fun c => c ≠ '_')).foldl (fun a c => 10 * a + ((c.toNat : Int) - 48)) 0

/-- Value Python `int(s)` returns on a valid token. -/
def pyIntVal (cs : List Char) : Int :=
  match cs with
  | '+' :: rest => digitsVal rest
  | '-' :: rest => - digitsVal rest
  | _ => digitsVal cs

/-- Python `int(s)`: value, or the `ValueError` message naming the token. -/
def pythonInt (s : String) : Except String Int :=
  if pyIntValid s.data then .ok (pyIntVal s.data)
  else .error ("invalid literal for int() with base 10: \x27" ++ s ++ "\x27")

/-- A row of `backup_schedules` as fetched by `get_active_schedules`. -/
structure ScheduleRow where
  id : Nat
  databaseName : String
  scheduleType : String
  intervalMinutes : Option Nat
  cronExpression : Option String
  enabled : Bool
  lastRun : Option Nat
  deriving DecidableEq, Repr

/-- `get_active_schedules`: all enabled rows, or `[]` when the store read
raises (the function catches every exception and returns an empty list). -/
def get_active_schedules (store : List ScheduleRow) (readOk : Bool) : List ScheduleRow :=
  if readOk then store.filter (fun r => r.enabled) else []

/-- The celery `crontab` rule built by `parse_cron_expression`:
`None` (wildcard) or a fixed integer per field. -/
structure CronRule where
  minute : Option Int
  hour : Option Int
  dayOfMonth : Option Int
  monthOfYear : Option Int
  dayOfWeek : Option Int
  deriving DecidableEq, Repr

/-- `convert_to_int_or_none` inside `parse_cron_expression`. -/
def convert_to_int_or_none (s : String) : Except String (Option Int) :=
  if s = "*" then .ok none else (pythonInt s).map some

/-- Decimal rendering of an integer (for the celery error message). -/
def intRepr (v : Int) : String :=
  if v < 0 then "-" ++ Nat.repr v.natAbs else Nat.repr v.natAbs

/-- Whether a converted field passes the range validation of celery's
`crontab._expand_cronspec`: a wildcard (`None`) always passes, an integer
must lie in `[lo, hi]`. -/
def cronFieldInRange (lo hi : Nat) : Option Int → Bool
  | none => true
  | some v => (lo : Int) ≤ v && v ≤ (hi : Int)

/-- Celery's `ValueError` message for an out-of-range crontab field value. -/
def cronRangeError (lo hi : Nat) (v : Int) : String :=
  "Invalid crontab pattern.  Valid range is " ++ Nat.repr lo ++ "-" ++
    Nat.repr hi ++ ". \x27" ++ intRepr v ++ "\x27 was found."

/-- One field of the `crontab` constructor: celery's `_expand_cronspec`
raises `ValueError` when an integer value is out of range. -/
def expandCronspec (lo hi : Nat) (f : Option Int) : Except String (Option Int) :=
  match f with
  | none => .ok none
  | some v =>
      if cronFieldInRange lo hi (some v) then .ok (some v)
      else .error (cronRangeError lo hi v)

/-- The celery `crontab(...)` constructor called at the end of
`parse_cron_expression` (an external collaborator): it validates hour,
minute, day-of-week, day-of-month and month-of-year, in that order, with
ranges 0-23, 0-59, 0-6, 1-31 and 1-12, raising `ValueError` for an
out-of-range or negative value. -/
def celeryCrontab (m h d mo w : Option Int) : Except String CronRule := do
  let h' ← expandCronspec 0 23 h
  let m' ← expandCronspec 0 59 m
  let w' ← expandCronspec 0 6 w
  let d' ← expandCronspec 1 31 d
  let mo' ← expandCronspec 1 12 mo
  pure ⟨m', h', d', mo', w'⟩

/-- `parse_cron_expression`: five whitespace-separated fields, each `*` or a
Python integer literal, fed to the celery `crontab` constructor; any other
field count raises `ValueError(f"Invalid cron expression: {cron_expr}")`, a
bad token raises the `int()` error naming the token (in argument order
minute, hour, day, month, day-of-week), and the constructor then raises for
out-of-range values. -/
def parse_cron_expression (cronExpr : String) : Except String CronRule :=
  match pySplitWs cronExpr with
  | [minute, hour, day, month, dayOfWeek] => do
      let m ← convert_to_int_or_none minute
      let h ← convert_to_int_or_none hour
      let d ← convert_to_int_or_none day
      let mo ← convert_to_int_or_none month
      let w ← convert_to_int_or_none dayOfWeek
      celeryCrontab m h d mo w
  | _ => .error ("Invalid cron expression: " ++ cronExpr)

/-- A trigger rule registered in `celery.conf.beat_schedule`. -/
inductive TriggerRule where
  | interval (minutes : Nat)
  | cron (rule : CronRule)
  deriving DecidableEq, Repr

/-- One `beat_schedule` entry: the task path, the trigger rule and the
schedule id passed in `args`. -/
structure BeatEntry where
  task : String
  rule : TriggerRule
  argId : Nat
  deriving DecidableEq, Repr

/-- The `beat_schedule` dict: association list keyed by the task name. -/
abbrev BeatSchedule := List (String × BeatEntry)

/-- Python dict assignment `d[k] = v`: overwrite in place, else append. -/
def dictInsert (k : String) (v : BeatEntry) (d : BeatSchedule) : BeatSchedule :=
  if d.any (fun p => p.1 = k) then
    d.map (fun p => if p.1 = k then (k, v) else p)
  else d ++ [(k, v)]

/-- The task name `f"backup_schedule_{schedule['id']}"`. -/
def scheduleTaskName (id : Nat) : String :=
  "backup_schedule_" ++ Nat.repr id

/-- Effective period of an interval schedule:
`schedule['interval_minutes'] or 60` (Python `or`: `None` and `0` give 60). -/
def effectiveInterval : Option Nat → Nat
  | none => 60
  | some n => if n = 0 then 60 else n

/-- One loop iteration of `refresh_scheduler` (and `setup_scheduler`):
translate one row into the dict, skipping rows of type `crontab` with a
missing or unparseable cron expression, and rows of any other type. -/
def translateRow (d : BeatSchedule) (r : ScheduleRow) : BeatSchedule :=
  if r.scheduleType = "interval" then
    dictInsert (scheduleTaskName r.id)
      ⟨"app.tasks.backup_database_task", .interval (effectiveInterval r.intervalMinutes), r.id⟩ d
  else if r.scheduleType = "crontab" then
    match r.cronExpression with
    | some expr =>
        match parse_cron_expression expr with
        | .ok c =>
            dictInsert (scheduleTaskName r.id)
              ⟨"app.tasks.backup_database_task", .cron c, r.id⟩ d
        | .error _ => d
    | none => d
  else d

/-- The new mapping built by `refresh_scheduler` from the rows it read. -/
def refreshBuild (rows : List ScheduleRow) : BeatSchedule :=
  rows.foldl translateRow []

/-- `refresh_scheduler`: read the enabled rows and rebuild the mapping
(the body raises nothing in this model, so it returns `True` and the new
mapping; the trailing diff/reload block only logs). -/
def refresh_scheduler (store : List ScheduleRow) (readOk : Bool) :
    Bool × BeatSchedule :=
  (true, refreshBuild (get_active_schedules store readOk))

/-- Observable effects of `trigger_backup_for_schedule`, in program order. -/
inductive TriggerEffect where
  | updateLastRun (scheduleId now : Nat)
  | enqueueBackup (scheduleId : Nat)
  deriving DecidableEq, Repr

/-- Result of `trigger_backup_for_schedule`. -/
structure TriggerOutcome where
  taskStarted : Bool
  effects : List TriggerEffect
  store : List ScheduleRow
  deriving Repr

/-- `update_schedule_run_time(schedule_id, last_run=now)` applied to the
store; the function swallows its own store errors (`updOk = false`). -/
def update_schedule_run_time (store : List ScheduleRow) (scheduleId now : Nat)
    (updOk : Bool) : List ScheduleRow :=
  if updOk then
    store.map (fun r => if r.id = scheduleId then { r with lastRun := some now } else r)
  else store

/-- `trigger_backup_for_schedule`: look the id up among the enabled rows;
if absent return `None` with no effect, otherwise update `last_run` and then
enqueue `backup_database_task`. -/
def trigger_backup_for_schedule (store : List ScheduleRow) (readOk : Bool)
    (scheduleId now : Nat) (updOk : Bool) : TriggerOutcome :=
  let schedules := get_active_schedules store readOk
  match schedules.find? (fun s => s.id = scheduleId) with
  | none => { taskStarted := false, effects := [], store := store }
  | some _ =>
      { taskStarted := true
        effects := [.updateLastRun scheduleId now, .enqueueBackup scheduleId]
        store := update_schedule_run_time store scheduleId now updOk }

/-! ## `app/tasks.py` -/

/-- Environment variables the executor reads.  The encryption variables are
carried so that theorems can speak about the pipeline's (non-)dependence on
them. -/
structure TaskEnv where
  databaseUrl : Option String
  backupEncryptionKey : Option String
  backupEncryptionPassword : Option String
  minioBucketName : Option String
  fallbackStorageDir : Option String
  deriving Repr

def bucketName (env : TaskEnv) : String := env.minioBucketName.getD "backups"

def fallbackDir (env : TaskEnv) : String := env.fallbackStorageDir.getD "/fallback"

/-- Outcome of `upload_to_minio`: the function returns `True` on success,
returns `False` when an `S3Error` is raised, and lets any other exception
propagate. -/
inductive UploadOutcome where
  | ok
  | s3Error (msg : String)
  | otherError (msg : String)
  deriving DecidableEq, Repr

/-- Behaviour of the external collaborators during one task run. -/
structure TaskWorld where
  /-- The `SELECT database_name, enabled FROM backup_schedules WHERE id = %s`
  lookup: connection error, no row, or `(database_name, enabled)` with a
  nullable database name. -/
  scheduleLookup : Except String (Option (Option String × Bool))
  /-- `pg_dump`: success or its stderr. -/
  dumpResult : Except String Unit
  uploadResult : UploadOutcome
  /-- `shutil.copy2` into the fallback directory. -/
  localSaveResult : Except String Unit
  /-- whether `record_backup_metadata` manages to insert the row (it swallows
  its own exceptions either way). -/
  metadataWriteOk : Bool
  /-- the `datetime.now().strftime(...)` timestamp component. -/
  timestamp : String
  deriving Repr

/-- External side effects of the pipeline, in program order. -/
inductive TaskEv where
  | dump
  | upload
  | localSave
  | metadataWrite
  deriving DecidableEq, Repr

/-- Terminal state of one invocation. -/
inductive TaskOutcome where
  | skipped
  | success (backupName storageType storageLocation : String)
  | failure (msg : String)
  deriving DecidableEq, Repr

/-- The row `record_backup_metadata` inserts into `backups`. -/
structure BackupMeta where
  databaseName : String
  backupName : String
  storageType : String
  storageLocation : String
  deriving DecidableEq, Repr

structure TaskRun where
  events : List TaskEv
  outcome : TaskOutcome
  recorded : Option BackupMeta
  deriving DecidableEq, Repr

/-- `db_name = database_name or 'default'` (Python `or`). -/
def effectiveDbName : Option String → String
  | none => "default"
  | some s => if s = "" then "default" else s

/-- `backup_name = f"backup_{db_name}_{timestamp}.dump"`. -/
def mkBackupName (dbName timestamp : String) : String :=
  "backup_" ++ dbName ++ "_" ++ timestamp ++ ".dump"

/-- `backup_database_task`: resolve the schedule, dump, upload with local
fallback, record metadata.  `except Exception` turns any raised error into a
FAILURE state (re-raised to the queue); there is no encryption step and the
encryption configuration is never read. -/
def backup_database_task (env : TaskEnv) (w : TaskWorld) : TaskRun :=
  match env.databaseUrl with
  | none => { events := [], outcome := .failure "DATABASE_URL not set", recorded := none }
  | some _ =>
    match w.scheduleLookup with
    | .error e => { events := [], outcome := .failure e, recorded := none }
    | .ok none => { events := [], outcome := .skipped, recorded := none }
    | .ok (some (_, false)) => { events := [], outcome := .skipped, recorded := none }
    | .ok (some (dbField, true)) =>
      let dbName := effectiveDbName dbField
      let backupName := mkBackupName dbName w.timestamp
      match w.dumpResult with
      | .error e =>
          { events := [.dump]
            outcome := .failure ("Database backup failed: " ++ e)
            recorded := none }
      | .ok _ =>
        let objectName := dbName ++ "/" ++ backupName
        match w.uploadResult with
        | .ok =>
            let loc := "s3://" ++ objectName
            { events := [.dump, .upload, .metadataWrite]
              outcome := .success backupName "minio" loc
              recorded :=
                if w.metadataWriteOk then
                  some ⟨dbName, backupName, "minio", loc⟩
                else none }
        | .s3Error _ =>
            match w.localSaveResult with
            | .error e =>
                { events := [.dump, .upload, .localSave]
                  outcome := .failure e
                  recorded := none }
            | .ok _ =>
                let loc := pyJoin (fallbackDir env) backupName
                { events := [.dump, .upload, .localSave, .metadataWrite]
                  outcome := .success backupName "local" loc
                  recorded :=
                    if w.metadataWriteOk then
                      some ⟨dbName, backupName, "local", loc⟩
                    else none }
        | .otherError e =>
            { events := [.dump, .upload]
              outcome := .failure e
              recorded := none }

/-- `get_encryption_key`: a directly configured key wins; otherwise derive
from the password with PBKDF2 (an external primitive, passed as `kdf`) over
the fixed salt, base64-url encoded (`b64`); with neither, raise. -/
def get_encryption_key (env : TaskEnv) (kdf : String → String → List Nat)
    (b64 : List Nat → String) : Except String String :=
  match env.backupEncryptionKey with
  | some key => .ok key
  | none =>
    match env.backupEncryptionPassword with
    | none => .error
        "Either BACKUP_ENCRYPTION_KEY or BACKUP_ENCRYPTION_PASSWORD environment variable must be set"
    | some password => .ok (b64 (kdf password "dbguardian_backup_salt"))

/-! ### File encryption (`encrypt_file` / `decrypt_file`)

The Fernet cipher is an external collaborator: an abstract
`encrypt/decrypt` pair over byte strings. The filesystem is an association
list from paths to contents. -/

abbrev Bytes := List Nat

structure FernetCipher where
  enc : String → Bytes → Bytes
  dec : String → Bytes → Bytes

abbrev FileSys := List (String × Bytes)

def fsRead (fs : FileSys) (path : String) : Option Bytes :=
  (fs.find? (fun p => p.1 = path)).map (fun p => p.2)

def fsWrite (fs : FileSys) (path : String) (contents : Bytes) : FileSys :=
  (path, contents) :: fs

/-- `encrypt_file`: read the file, encrypt, write `file_path + ".enc"`. -/
def encrypt_file (c : FernetCipher) (key : String) (fs : FileSys) (path : String) :
    Except String (FileSys × String) :=
  match fsRead fs path with
  | none => .error ("No such file: " ++ path)
  | some contents =>
      let encPath := path ++ ".enc"
      .ok (fsWrite fs encPath (c.enc key contents), encPath)

/-- `decrypt_file`: read the encrypted file, decrypt, write
`encrypted_path.replace(".enc", "")`. -/
def decrypt_file (c : FernetCipher) (key : String) (fs : FileSys)
    (encPath : String) : Except String (FileSys × String) :=
  match fsRead fs encPath with
  | none => .error ("No such file: " ++ encPath)
  | some contents =>
      let decPath := String.mk (removeEnc encPath.data)
      .ok (fsWrite fs decPath (c.dec key contents), decPath)

/-! ### `list_backups` -/

/-- An object returned by the MinIO listing (its creation time already
rendered as the ISO string the code stores). -/
structure MinioObj where
  objectName : String
  lastModified : Option String
  size : Option Nat
  deriving DecidableEq, Repr

/-- A record synthesized by `list_backups`.  `idKey` is the string whose
(per-process randomized) Python `hash()` the code stores as `id`; the claims
do not depend on that hash. -/
structure BackupRec where
  idKey : String
  databaseName : String
  backupName : String
  storageType : String
  storageLocation : String
  createdAt : Option String
  sizeBytes : Option Nat
  status : String
  deriving DecidableEq, Repr

/-- `if not database_name or db_name == database_name` (Python falsiness:
`None` and the empty string pass everything). -/
def matchesFilter (dbFilter : Option String) (dbName : String) : Bool :=
  match dbFilter with
  | none => true
  | some f => if f = "" then true else dbName = f

/-- The record the MinIO branch of `list_backups` synthesizes for one
object, if any. -/
def minioScanRecord (dbFilter : Option String) (o : MinioObj) : Option BackupRec :=
  if pyEndsWith o.objectName ".dump" then
    match pySplitChar '/' o.objectName with
    | [dbName, backupName] =>
        if matchesFilter dbFilter dbName then
          some { idKey := o.objectName
                 databaseName := dbName
                 backupName := backupName
                 storageType := "minio"
                 storageLocation := "s3://" ++ o.objectName
                 createdAt := o.lastModified
                 sizeBytes := o.size
                 status := "completed" }
        else none
    | _ => none
  else none

/-- The record the local-fallback branch of `list_backups` synthesizes for
one filename, if any; `sizeOf?` models `os.path.getsize`. -/
def localScanRecord (dir : String) (dbFilter : Option String)
    (sizeOf? : String → Option Nat) (file : String) : Option BackupRec :=
  if pyEndsWith file ".enc" then
    let backupName := String.mk (file.data.take (file.data.length - 4))
    if pyStartsWith backupName "backup_" then
      let parts := pySplitChar '_' backupName
      if parts.length ≥ 3 then
        let dbName := (parts.get? 1).getD ""
        if matchesFilter dbFilter dbName then
          let filePath := pyJoin dir file
          some { idKey := file
                 databaseName := dbName
                 backupName := backupName
                 storageType := "local"
                 storageLocation := filePath
                 createdAt := none
                 sizeBytes := sizeOf? filePath
                 status := "completed" }
        else none
      else none
    else none
  else none

/-- The sort key `(x['created_at'] or '9999-99-99', x['backup_name'])`. -/
def recKey (r : BackupRec) : String × String :=
  (match r.createdAt with
   | none => "9999-99-99"
   | some s => if s = "" then "9999-99-99" else s,
   r.backupName)

/-- The order in which Python's stable `sort(key=..., reverse=True)` lays
records out: `a` may precede `b` iff `key a` is not less than `key b`. -/
def recDescRel (a b : BackupRec) : Prop := pairLt (recKey a) (recKey b) = false

instance : DecidableRel recDescRel := fun a b =>
  inferInstanceAs (Decidable (_ = false))

/-- `backups.sort(key=lambda x: (x['created_at'] or '9999-99-99',
x['backup_name']), reverse=True)` — a stable sort under `recDescRel`. -/
def pySortBackups (l : List BackupRec) : List BackupRec :=
  List.insertionSort recDescRel l

/-- The unsorted accumulation of `list_backups`: the MinIO listing if it
yielded records (listing failure behaves like no records), otherwise the
local fallback scan (a missing or unreadable directory yields nothing). -/
def listBackupsRaw (minioListing : Except String (List MinioObj))
    (localListing : Except String (List String)) (dir : String)
    (sizeOf? : String → Option Nat) (dbFilter : Option String) : List BackupRec :=
  let primary :=
    match minioListing with
    | .error _ => []
    | .ok objs => objs.filterMap (minioScanRecord dbFilter)
  if primary = [] then
    match localListing with
    | .error _ => []
    | .ok files => files.filterMap (localScanRecord dir dbFilter sizeOf?)
  else primary

/-- `list_backups`: accumulate, then sort. -/
def list_backups (minioListing : Except String (List MinioObj))
    (localListing : Except String (List String)) (dir : String)
    (sizeOf? : String → Option Nat) (dbFilter : Option String) : List BackupRec :=
  pySortBackups (listBackupsRaw minioListing localListing dir sizeOf? dbFilter)

/-! ## `app/routes/backups.py`: `delete_backup` -/

/-- A `backups` metadata row, as far as deletion looks at it. -/
structure MetaRow where
  rowId : Nat
  storageLocation : String
  deriving DecidableEq, Repr

/-- External state `delete_backup` acts on. -/
structure DeleteWorld where
  /-- client construction / stat / remove all work. -/
  minioOk : Bool
  minioObjects : List String
  /-- full paths of files present under the fallback directory. -/
  localFiles : List String
  dbOk : Bool
  dbRows : List MetaRow
  deriving Repr

structure DeleteOutcome where
  deletedFromStorage : Bool
  backupName : String
  minioObjects : List String
  localFiles : List String
  dbRows : List MetaRow
  deriving Repr

/-- `filename.split('/')[-1]`. -/
def lastPathComponent (filename : String) : String :=
  ((pySplitChar '/' filename).getLast?).getD ""

/-- The storage location written at record-creation time for a primary
(MinIO) upload: `f"s3://{object_name}"` with `object_name =
f"{db_name}/{backup_name}"`; the deletion identifier for such an artifact is
the object name itself. -/
def primaryCreationLoc (objectName : String) : String := "s3://" ++ objectName

/-- The storage location written at record-creation time for a fallback
(local) save: `os.path.join(fallback_dir, backup_name)`; the deletion
identifier for such an artifact is the bare backup name. -/
def fallbackCreationLoc (dir backupName : String) : String := pyJoin dir backupName

/-- The primary-style location `delete_backup` purges:
`f"s3://{bucket_name}/{filename}"` — note the bucket segment. -/
def deleteS3Loc (env : TaskEnv) (filename : String) : String :=
  "s3://" ++ bucketName env ++ "/" ++ filename

/-- The fallback-style location `delete_backup` purges. -/
def deleteLocalLoc (env : TaskEnv) (filename : String) : String :=
  pyJoin (fallbackDir env) filename

/-- `delete_backup(filename)`: try MinIO, then the local directory, then —
regardless of either result — purge metadata rows matching the two
deletion-style locations; 404 only when neither store held the object. -/
def delete_backup (env : TaskEnv) (w : DeleteWorld) (filename : String) :
    DeleteOutcome :=
  let deletedMinio := w.minioOk && w.minioObjects.contains filename
  let minioObjects' :=
    if deletedMinio then w.minioObjects.erase filename else w.minioObjects
  let localPath := pyJoin (fallbackDir env) filename
  let deletedLocal := !deletedMinio && w.localFiles.contains localPath
  let localFiles' :=
    if deletedLocal then w.localFiles.erase localPath else w.localFiles
  let s3Loc := deleteS3Loc env filename
  let localLoc := deleteLocalLoc env filename
  let dbRows' :=
    if w.dbOk then
      w.dbRows.filter
        (fun r => ¬ (r.storageLocation = s3Loc ∨ r.storageLocation = localLoc))
    else w.dbRows
  { deletedFromStorage := deletedMinio || deletedLocal
    backupName :=
      if deletedMinio then lastPathComponent filename
      else if deletedLocal then filename
      else "unknown"
    minioObjects := minioObjects'
    localFiles := localFiles'
    dbRows := dbRows' }

/-! ## Helper lemmas -/

theorem charLt_asymm {a b : Char} (h : charLt a b = true) : charLt b a = false := by
  simp [charLt] at *; omega

theorem charLt_trans {a b c : Char} (h1 : charLt a b = true) (h2 : charLt b c = true) :
    charLt a c = true := by
  simp [charLt] at *; omega

theorem char_toNat_inj {a b : Char} (h : a.toNat = b.toNat) : a = b := by
  apply Char.eq_of_val_eq
  apply UInt32.eq_of_toBitVec_eq
  apply BitVec.eq_of_toNat_eq
  exact h

theorem charLt_connex {a b : Char} (h1 : charLt a b = false) (h2 : charLt b a = false) :
    a = b := by
  simp [charLt] at h1 h2
  exact char_toNat_inj (by omega)

theorem lexLt_asymm : ∀ {l1 l2 : List Char}, lexLt l1 l2 = true → lexLt l2 l1 = false
  | [], [], h => by simp [lexLt] at h
  | [], _ :: _, _ => by simp [lexLt]
  | _ :: _, [], h => by simp [lexLt] at h
  | a :: as, b :: bs, h => by
    by_cases hab : charLt a b = true
    · simp [lexLt, hab, charLt_asymm hab]
    · by_cases hba : charLt b a = true
      · simp [lexLt, hab, hba] at h
      · have hab' : charLt a b = false := by simpa using hab
        have hba' : charLt b a = false := by simpa using hba
        have h' : lexLt as bs = true := by simpa [lexLt, hab', hba'] using h
        simp [lexLt, hab', hba', lexLt_asymm h']

theorem lexLt_trans : ∀ {l1 l2 l3 : List Char},
    lexLt l1 l2 = true → lexLt l2 l3 = true → lexLt l1 l3 = true
  | [], _, _ :: _, _, _ => by simp [lexLt]
  | [], l2, [], h1, h2 => by
    cases l2 <;> simp [lexLt] at h1 h2
  | _ :: _, l2, [], h1, h2 => by
    cases l2 <;> simp [lexLt] at h1 h2
  | a :: as, l2, c :: cs, h1, h2 => by
    match l2 with
    | [] => simp [lexLt] at h1
    | b :: bs =>
      by_cases hab : charLt a b = true
      · by_cases hbc : charLt b c = true
        · simp [lexLt, charLt_trans hab hbc]
        · have hbc' : charLt b c = false := by simpa using hbc
          by_cases hcb : charLt c b = true
          · simp [lexLt, hbc', hcb] at h2
          · have : b = c := charLt_connex hbc' (by simpa using hcb)
            subst this
            simp [lexLt, hab]
      · have hab' : charLt a b = false := by simpa using hab
        by_cases hba : charLt b a = true
        · simp [lexLt, hab', hba] at h1
        · have hba' : charLt b a = false := by simpa using hba
          have hEq : a = b := charLt_connex hab' hba'
          subst hEq
          have h1' : lexLt as bs = true := by simpa [lexLt, hab', hba'] using h1
          by_cases hac : charLt a c = true
          · simp [lexLt, hac]
          · have hac' : charLt a c = false := by simpa using hac
            by_cases hca : charLt c a = true
            · simp [lexLt, hac', hca] at h2
            · have hca' : charLt c a = false := by simpa using hca
              have h2' : lexLt bs cs = true := by simpa [lexLt, hac', hca'] using h2
              simp [lexLt, hac', hca', lexLt_trans h1' h2']

theorem lexLt_connex : ∀ {l1 l2 : List Char},
    lexLt l1 l2 = false → lexLt l2 l1 = false → l1 = l2
  | [], [], _, _ => rfl
  | [], _ :: _, h1, _ => by simp [lexLt] at h1
  | _ :: _, [], _, h2 => by simp [lexLt] at h2
  | a :: as, b :: bs, h1, h2 => by
    by_cases hab : charLt a b = true
    · simp [lexLt, hab] at h1
    · have hab' : charLt a b = false := by simpa using hab
      by_cases hba : charLt b a = true
      · simp [lexLt, hba] at h2
      · have hba' : charLt b a = false := by simpa using hba
        have hEq : a = b := charLt_connex hab' hba'
        subst hEq
        have h1' : lexLt as bs = false := by simpa [lexLt, hab', hba'] using h1
        have h2' : lexLt bs as = false := by simpa [lexLt, hab', hba'] using h2
        rw [lexLt_connex h1' h2']

theorem pairLt_asymm {a b : String × String} (h : pairLt a b = true) :
    pairLt b a = false := by
  unfold pairLt at *
  by_cases h1 : lexLt a.1.data b.1.data = true
  · simp [h1, lexLt_asymm h1]
  · have h1' : lexLt a.1.data b.1.data = false := by simpa using h1
    by_cases h2 : lexLt b.1.data a.1.data = true
    · simp [h1', h2] at h
    · have h2' : lexLt b.1.data a.1.data = false := by simpa using h2
      have h3 : lexLt a.2.data b.2.data = true := by simpa [h1', h2'] using h
      simp [h1', h2', lexLt_asymm h3]

theorem pairLt_trans {a b c : String × String} (h1 : pairLt a b = true)
    (h2 : pairLt b c = true) : pairLt a c = true := by
  unfold pairLt at *
  by_cases hab : lexLt a.1.data b.1.data = true
  · by_cases hbc : lexLt b.1.data c.1.data = true
    · simp [lexLt_trans hab hbc]
    · have hbc' : lexLt b.1.data c.1.data = false := by simpa using hbc
      by_cases hcb : lexLt c.1.data b.1.data = true
      · simp [hbc', hcb] at h2
      · have hEq : b.1.data = c.1.data := lexLt_connex hbc' (by simpa using hcb)
        simp [← hEq, hab]
  · have hab' : lexLt a.1.data b.1.data = false := by simpa using hab
    by_cases hba : lexLt b.1.data a.1.data = true
    · simp [hab', hba] at h1
    · have hba' : lexLt b.1.data a.1.data = false := by simpa using hba
      have hEq : a.1.data = b.1.data := lexLt_connex hab' hba'
      have h1' : lexLt a.2.data b.2.data = true := by simpa [hab', hba'] using h1
      by_cases hbc : lexLt b.1.data c.1.data = true
      · simp [hEq, hbc]
      · have hbc' : lexLt b.1.data c.1.data = false := by simpa using hbc
        by_cases hcb : lexLt c.1.data b.1.data = true
        · simp [hbc', hcb] at h2
        · have hcb' : lexLt c.1.data b.1.data = false := by simpa using hcb
          have h2' : lexLt b.2.data c.2.data = true := by simpa [hbc', hcb'] using h2
          have hEq2 : b.1.data = c.1.data := lexLt_connex hbc' hcb'
          simp [hEq, hEq2, lexLt_trans h1' h2']

theorem pairLt_connex {a b : String × String} (h1 : pairLt a b = false)
    (h2 : pairLt b a = false) : a = b := by
  unfold pairLt at *
  by_cases hab : lexLt a.1.data b.1.data = true
  · simp [hab] at h1
  · have hab' : lexLt a.1.data b.1.data = false := by simpa using hab
    by_cases hba : lexLt b.1.data a.1.data = true
    · simp [hba] at h2
    · have hba' : lexLt b.1.data a.1.data = false := by simpa using hba
      have hEq1 : a.1.data = b.1.data := lexLt_connex hab' hba'
      have h1' : lexLt a.2.data b.2.data = false := by simpa [hab', hba'] using h1
      have h2' : lexLt b.2.data a.2.data = false := by simpa [hab', hba'] using h2
      have hEq2 : a.2.data = b.2.data := lexLt_connex h1' h2'
      have e1 : a.1 = b.1 := by
        cases a; cases b
        simp only at hEq1 hEq2 ⊢
        exact congrArg String.mk hEq1
      have e2 : a.2 = b.2 := by
        cases a; cases b
        simp only at hEq1 hEq2 ⊢
        exact congrArg String.mk hEq2
      exact Prod.ext e1 e2

theorem fsRead_fsWrite_self (fs : FileSys) (path : String) (contents : Bytes) :
    fsRead (fsWrite fs path contents) path = some contents := by
  simp [fsRead, fsWrite, List.find?]

/-- Totality of the descending sort-key order. -/
theorem recDescRel_total : ∀ a b : BackupRec, recDescRel a b ∨ recDescRel b a := by
  intro a b
  unfold recDescRel
  by_cases h : pairLt (recKey a) (recKey b) = true
  · right; exact pairLt_asymm h
  · left; simpa using h

/-- Transitivity of the descending sort-key order. -/
theorem recDescRel_trans : ∀ a b c : BackupRec,
    recDescRel a b → recDescRel b c → recDescRel a c := by
  intro a b c hab hbc
  unfold recDescRel at *
  by_cases hac : pairLt (recKey a) (recKey c) = true
  · exfalso
    by_cases hba : pairLt (recKey b) (recKey a) = true
    · by_cases hcb : pairLt (recKey c) (recKey b) = true
      · exact absurd (pairLt_asymm (pairLt_trans hcb hba)) (by simp [hac])
      · have : recKey b = recKey c := pairLt_connex hbc (by simpa using hcb)
        rw [← this] at hac
        exact absurd (pairLt_asymm hba) (by simp [hac])
    · have : recKey a = recKey b := pairLt_connex hab (by simpa using hba)
      rw [this] at hac
      exact absurd hac (by simp [hbc])
  · simpa using hac

theorem isSuffixOf_enc_dump (l : List Char) :
    List.isSuffixOf ['.', 'e', 'n', 'c'] (l ++ ['.', 'd', 'u', 'm', 'p']) = false := by
  simp [List.isSuffixOf, List.reverse_append, List.isPrefixOf]

/-- Any successful run of the executor produced the backup name
`f"backup_{db_name}_{timestamp}.dump"` for some database field. -/
theorem task_success_shape (env : TaskEnv) (w : TaskWorld)
    (name st loc : String)
    (h : (backup_database_task env w).outcome = .success name st loc) :
    ∃ dbf, w.scheduleLookup = .ok (some (dbf, true)) ∧
      name = mkBackupName (effectiveDbName dbf) w.timestamp := by
  unfold backup_database_task at h
  cases hurl : env.databaseUrl <;> rw [hurl] at h
  · simp at h
  · cases hsl : w.scheduleLookup <;> rw [hsl] at h
    · simp at h
    · rename_i row
      cases row with
      | none => simp at h
      | some pr =>
        obtain ⟨dbf, b⟩ := pr
        cases b with
        | false => simp at h
        | true =>
          cases hd : w.dumpResult <;> rw [hd] at h
          · simp at h
          · cases hu : w.uploadResult <;> rw [hu] at h
            · simp at h
              exact ⟨dbf, rfl, h.1.symm⟩
            · cases hls : w.localSaveResult <;> rw [hls] at h
              · simp at h
              · simp at h
                exact ⟨dbf, rfl, h.1.symm⟩
            · simp at h

theorem mkBackupName_not_enc (dbName ts : String) :
    pyEndsWith (mkBackupName dbName ts) ".enc" = false := by
  show List.isSuffixOf ".enc".data (mkBackupName dbName ts).data = false
  have hdata : (mkBackupName dbName ts).data =
      ("backup_" ++ dbName ++ "_" ++ ts).data ++ ['.', 'd', 'u', 'm', 'p'] := by
    simp [mkBackupName]
  rw [hdata]
  exact isSuffixOf_enc_dump _

/-- C9: every artifact the executor stores in the local fallback directory is
named `backup_<db>_<timestamp>.dump`, and the fallback-scan branch of
`list_backups` synthesizes records only for filenames ending in `.enc`, so it
never returns a record for such an artifact. -/
theorem fallback_backups_invisible_to_local_scan
    (env : TaskEnv) (w : TaskWorld) (name loc dir : String)
    (dbFilter : Option String) (sizeOf? : String → Option Nat)
    (h : (backup_database_task env w).outcome = .success name "local" loc) :
    pyEndsWith name ".enc" = false ∧
    localScanRecord dir dbFilter sizeOf? name = none := by
  obtain ⟨dbf, _, hname⟩ := task_success_shape env w name "local" loc h
  subst hname
  refine ⟨mkBackupName_not_enc _ _, ?_⟩
  unfold localScanRecord
  rw [mkBackupName_not_enc]
  simp

/-- Witness for C9 at a concrete fallback run. -/
theorem fallback_backups_invisible_to_local_scan_witness :
    pyEndsWith "backup_db_20240101_000000.dump" ".enc" = false ∧
    localScanRecord "/fallback" none (fun _ => none)
      "backup_db_20240101_000000.dump" = none :=
  fallback_backups_invisible_to_local_scan
    ⟨some "postgresql://u@h/db", none, none, none, none⟩
    ⟨.ok (some (some "db", true)), .ok (), .s3Error "bucket down", .ok (),
      true, "20240101_000000"⟩
    "backup_db_20240101_000000.dump"
    "/fallback/backup_db_20240101_000000.dump" "/fallback" none (fun _ => none)
    (by rfl)

/-- C10: decrypting the file produced by `encrypt_file` with the same key
writes back exactly the original contents (round trip through the external
cipher contract), and `get_encryption_key` is a function of the configured
key and password alone, hence returns the same key on every call for a fixed
password. -/
theorem encrypt_decrypt_roundtrip_and_key_deterministic
    (c : FernetCipher) (key : String) (fs : FileSys) (path : String)
    (data : Bytes) (kdf : String → String → List Nat) (b64 : List Nat → String)
    (e1 e2 : TaskEnv)
    (hc : ∀ k d, c.dec k (c.enc k d) = d)
    (hr : fsRead fs path = some data) :
    (∃ fs1 fs2 decPath,
       encrypt_file c key fs path = .ok (fs1, path ++ ".enc") ∧
       decrypt_file c key fs1 (path ++ ".enc") = .ok (fs2, decPath) ∧
       fsRead fs2 decPath = some data) ∧
    (e1.backupEncryptionKey = e2.backupEncryptionKey →
     e1.backupEncryptionPassword = e2.backupEncryptionPassword →
     get_encryption_key e1 kdf b64 = get_encryption_key e2 kdf b64) := by
  constructor
  · refine ⟨fsWrite fs (path ++ ".enc") (c.enc key data),
      fsWrite (fsWrite fs (path ++ ".enc") (c.enc key data))
        (String.mk (removeEnc (path ++ ".enc").data)) (c.dec key (c.enc key data)),
      String.mk (removeEnc (path ++ ".enc").data), ?_, ?_, ?_⟩
    · unfold encrypt_file
      rw [hr]
    · unfold decrypt_file
      rw [fsRead_fsWrite_self]
    · rw [hc]
      exact fsRead_fsWrite_self _ _ _
  · intro h1 h2
    unfold get_encryption_key
    rw [h1, h2]

/-- Witness for C10 at a concrete cipher, filesystem and environment. -/
theorem encrypt_decrypt_roundtrip_witness :
    (∃ fs1 fs2 decPath,
       encrypt_file ⟨fun _ d => d.reverse, fun _ d => d.reverse⟩ "k"
           [("a.sql", [1, 2, 3])] "a.sql" = .ok (fs1, "a.sql" ++ ".enc") ∧
       decrypt_file ⟨fun _ d => d.reverse, fun _ d => d.reverse⟩ "k" fs1
           ("a.sql" ++ ".enc") = .ok (fs2, decPath) ∧
       fsRead fs2 decPath = some [1, 2, 3]) ∧
    ((⟨none, none, some "pw", none, none⟩ : TaskEnv).backupEncryptionKey =
        (⟨none, none, some "pw", none, none⟩ : TaskEnv).backupEncryptionKey →
     (⟨none, none, some "pw", none, none⟩ : TaskEnv).backupEncryptionPassword =
        (⟨none, none, some "pw", none, none⟩ : TaskEnv).backupEncryptionPassword →
     get_encryption_key ⟨none, none, some "pw", none, none⟩
         (fun _ _ => [0]) (fun _ => "fk") =
       get_encryption_key ⟨none, none, some "pw", none, none⟩
         (fun _ _ => [0]) (fun _ => "fk")) :=
  encrypt_decrypt_roundtrip_and_key_deterministic
    ⟨fun _ d => d.reverse, fun _ d => d.reverse⟩ "k"
    [("a.sql", [1, 2, 3])] "a.sql" [1, 2, 3]
    (fun _ _ => [0]) (fun _ => "fk")
    ⟨none, none, some "pw", none, none⟩ ⟨none, none, some "pw", none, none⟩
    (fun _ d => List.reverse_reverse d) (by rfl)

/-- C8: `trigger_backup_for_schedule` on an id that matches no enabled row
returns `None` with no side effect (no dump enqueued, no last-run update);
on an enabled existing row it updates the last-run timestamp and then
enqueues the backup task, in that order. -/
theorem trigger_schedule_skip_and_order
    (store : List ScheduleRow) (scheduleId now : Nat) (updOk : Bool) :
    ((∀ r ∈ store, r.id = scheduleId → r.enabled = false) →
       trigger_backup_for_schedule store true scheduleId now updOk =
         { taskStarted := false, effects := [], store := store }) ∧
    (∀ r ∈ store, r.id = scheduleId → r.enabled = true →
       (trigger_backup_for_schedule store true scheduleId now updOk).taskStarted = true ∧
       (trigger_backup_for_schedule store true scheduleId now updOk).effects =
         [.updateLastRun scheduleId now, .enqueueBackup scheduleId] ∧
       (trigger_backup_for_schedule store true scheduleId now updOk).store =
         update_schedule_run_time store scheduleId now updOk) := by
  constructor
  · intro hnone
    have hfind : (get_active_schedules store true).find?
        (fun s => s.id = scheduleId) = none := by
      rw [List.find?_eq_none]
      intro x hx
      simp only [get_active_schedules, if_true] at hx
      rw [List.mem_filter] at hx
      obtain ⟨hx1, hx2⟩ := hx
      simp only [decide_eq_true_eq]
      intro heq
      rw [hnone x hx1 heq] at hx2
      exact absurd hx2 (by simp)
    simp [trigger_backup_for_schedule, hfind]
  · intro r hr hid hen
    have hmem : r ∈ get_active_schedules store true := by
      simp only [get_active_schedules, if_true]
      rw [List.mem_filter]
      exact ⟨hr, by simp [hen]⟩
    have hsome : ((get_active_schedules store true).find?
        (fun s => s.id = scheduleId)).isSome := by
      rw [List.find?_isSome]
      exact ⟨r, hmem, by simp [hid]⟩
    obtain ⟨s, hs⟩ := Option.isSome_iff_exists.mp hsome
    simp [trigger_backup_for_schedule, hs]

/-- Witness for C8: a disabled id is skipped, an enabled id updates then
enqueues. -/
theorem trigger_schedule_skip_and_order_witness :
    trigger_backup_for_schedule
        [⟨1, "db", "interval", some 5, none, true, none⟩,
         ⟨2, "db2", "interval", some 5, none, false, none⟩] true 2 100 true =
      { taskStarted := false, effects := [],
        store := [⟨1, "db", "interval", some 5, none, true, none⟩,
                  ⟨2, "db2", "interval", some 5, none, false, none⟩] } ∧
    (trigger_backup_for_schedule
        [⟨1, "db", "interval", some 5, none, true, none⟩,
         ⟨2, "db2", "interval", some 5, none, false, none⟩] true 1 100 true).effects =
      [.updateLastRun 1 100, .enqueueBackup 1] := by
  constructor
  · exact (trigger_schedule_skip_and_order
      [⟨1, "db", "interval", some 5, none, true, none⟩,
       ⟨2, "db2", "interval", some 5, none, false, none⟩] 2 100 true).1 (by decide)
  · exact ((trigger_schedule_skip_and_order
      [⟨1, "db", "interval", some 5, none, true, none⟩,
       ⟨2, "db2", "interval", some 5, none, false, none⟩] 1 100 true).2
      ⟨1, "db", "interval", some 5, none, true, none⟩ (by decide) rfl rfl).2.1

/-- C3 counterexample: with neither `BACKUP_ENCRYPTION_KEY` nor
`BACKUP_ENCRYPTION_PASSWORD` configured the pipeline raises no configuration
error, attempts the database dump, and completes with external side effects —
the claimed fail-fast behaviour does not happen. -/
theorem no_failfast_without_encryption_config :
    (⟨some "postgresql://u@h/db", none, none, none, none⟩ : TaskEnv).backupEncryptionKey
        = none ∧
    (⟨some "postgresql://u@h/db", none, none, none, none⟩ : TaskEnv).backupEncryptionPassword
        = none ∧
    (backup_database_task ⟨some "postgresql://u@h/db", none, none, none, none⟩
        ⟨.ok (some (some "db", true)), .ok (), .ok, .ok (), true,
          "20240101_000000"⟩).outcome =
      .success "backup_db_20240101_000000.dump" "minio"
        "s3://db/backup_db_20240101_000000.dump" ∧
    TaskEv.dump ∈ (backup_database_task
        ⟨some "postgresql://u@h/db", none, none, none, none⟩
        ⟨.ok (some (some "db", true)), .ok (), .ok, .ok (), true,
          "20240101_000000"⟩).events := by
  decide

/-- C3 amended: the pipeline never consults the encryption configuration —
its run is identical under any key/password setting, because it has no
encryption step — while `get_encryption_key` itself (never called by the
pipeline) raises the configuration error when neither source is set. -/
theorem pipeline_independent_of_encryption_config
    (env : TaskEnv) (w : TaskWorld) (k p : Option String)
    (kdf : String → String → List Nat) (b64 : List Nat → String) :
    backup_database_task
        { env with backupEncryptionKey := k, backupEncryptionPassword := p } w =
      backup_database_task env w ∧
    get_encryption_key
        { env with backupEncryptionKey := none, backupEncryptionPassword := none }
        kdf b64 =
      .error "Either BACKUP_ENCRYPTION_KEY or BACKUP_ENCRYPTION_PASSWORD environment variable must be set" :=
  ⟨rfl, rfl⟩

/-- C4 amended: after a successful dump, a primary upload that returns
`False` (an `S3Error`) triggers the local fallback and records storage kind
`local`; a failing fallback write fails the invocation; but an upload that
raises any other exception propagates and fails the invocation without any
fallback attempt and without a record. -/
theorem upload_fallback_semantics
    (env : TaskEnv) (w : TaskWorld) (u : String) (dbf : Option String)
    (hurl : env.databaseUrl = some u)
    (hsl : w.scheduleLookup = .ok (some (dbf, true)))
    (hd : w.dumpResult = .ok ()) :
    (w.uploadResult = .ok →
       (backup_database_task env w).outcome =
         .success (mkBackupName (effectiveDbName dbf) w.timestamp) "minio"
           ("s3://" ++ (effectiveDbName dbf ++ "/" ++
              mkBackupName (effectiveDbName dbf) w.timestamp))) ∧
    (∀ m, w.uploadResult = .s3Error m → w.localSaveResult = .ok () →
       (backup_database_task env w).outcome =
         .success (mkBackupName (effectiveDbName dbf) w.timestamp) "local"
           (pyJoin (fallbackDir env) (mkBackupName (effectiveDbName dbf) w.timestamp)) ∧
       (backup_database_task env w).recorded =
         (if w.metadataWriteOk then
            some ⟨effectiveDbName dbf, mkBackupName (effectiveDbName dbf) w.timestamp,
              "local",
              pyJoin (fallbackDir env) (mkBackupName (effectiveDbName dbf) w.timestamp)⟩
          else none)) ∧
    (∀ m e, w.uploadResult = .s3Error m → w.localSaveResult = .error e →
       (backup_database_task env w).outcome = .failure e ∧
       (backup_database_task env w).recorded = none) ∧
    (∀ m, w.uploadResult = .otherError m →
       (backup_database_task env w).outcome = .failure m ∧
       TaskEv.localSave ∉ (backup_database_task env w).events ∧
       (backup_database_task env w).recorded = none) := by
  refine ⟨?_, ?_, ?_, ?_⟩
  · intro hu
    simp [backup_database_task, hurl, hsl, hd, hu]
  · intro m hu hls
    simp [backup_database_task, hurl, hsl, hd, hu, hls]
  · intro m e hu hls
    simp [backup_database_task, hurl, hsl, hd, hu, hls]
  · intro m hu
    simp [backup_database_task, hurl, hsl, hd, hu]

/-- Witness for C4 at a concrete fallback run. -/
theorem upload_fallback_semantics_witness :
    (backup_database_task ⟨some "postgresql://u@h/db", none, none, none, none⟩
        ⟨.ok (some (some "db", true)), .ok (), .s3Error "bucket down", .ok (), true,
          "20240101_000000"⟩).outcome =
      .success "backup_db_20240101_000000.dump" "local"
        "/fallback/backup_db_20240101_000000.dump" :=
  ((upload_fallback_semantics
      ⟨some "postgresql://u@h/db", none, none, none, none⟩
      ⟨.ok (some (some "db", true)), .ok (), .s3Error "bucket down", .ok (), true,
        "20240101_000000"⟩
      "postgresql://u@h/db" (some "db") rfl rfl rfl).2.1 "bucket down" rfl rfl).1

/-- C4 counterexample: a primary-upload failure that is not an `S3Error`
(here a raised connection error) ends the invocation in FAILURE with no
fallback attempt and no record, even though the secondary store is healthy —
refuting "falls back for any reason of failure". -/
theorem primary_other_error_no_fallback :
    (backup_database_task ⟨some "postgresql://u@h/db", none, none, none, none⟩
        ⟨.ok (some (some "db", true)), .ok (), .otherError "connection refused",
          .ok (), true, "20240101_000000"⟩).outcome =
      .failure "connection refused" ∧
    TaskEv.localSave ∉ (backup_database_task
        ⟨some "postgresql://u@h/db", none, none, none, none⟩
        ⟨.ok (some (some "db", true)), .ok (), .otherError "connection refused",
          .ok (), true, "20240101_000000"⟩).events ∧
    (backup_database_task ⟨some "postgresql://u@h/db", none, none, none, none⟩
        ⟨.ok (some (some "db", true)), .ok (), .otherError "connection refused",
          .ok (), true, "20240101_000000"⟩).recorded = none ∧
    (⟨.ok (some (some "db", true)), .ok (), .otherError "connection refused",
        .ok (), true, "20240101_000000"⟩ : TaskWorld).localSaveResult = .ok () :=
  ⟨rfl, by decide, rfl, rfl⟩

/-- C6 amended: `delete_backup` purges exactly the rows whose location is
`f"s3://{bucket_name}/{filename}"` or `os.path.join(fallback_dir, filename)`
(independently of whether a physical object was found); identifiers present
only in the fallback store have their file removed and their
creation-time fallback-style row purged — but the primary-style purge
pattern carries the bucket segment that creation-time locations
(`f"s3://{db}/{name}"`) lack. -/
theorem delete_backup_purge_semantics
    (env : TaskEnv) (w : DeleteWorld) (filename : String) :
    (w.dbOk = true →
       (delete_backup env w filename).dbRows =
         w.dbRows.filter (fun r =>
           ¬ (r.storageLocation = deleteS3Loc env filename ∨
              r.storageLocation = deleteLocalLoc env filename))) ∧
    ((w.minioOk = false ∨ w.minioObjects.contains filename = false) →
     w.localFiles.contains (pyJoin (fallbackDir env) filename) = true →
       (delete_backup env w filename).deletedFromStorage = true ∧
       (delete_backup env w filename).localFiles =
         w.localFiles.erase (pyJoin (fallbackDir env) filename) ∧
       (w.dbOk = true → ∀ r ∈ w.dbRows,
          r.storageLocation = fallbackCreationLoc (fallbackDir env) filename →
          r ∉ (delete_backup env w filename).dbRows)) := by
  constructor
  · intro hdb
    simp [delete_backup, hdb]
  · intro hm hl
    have hdm : (w.minioOk && w.minioObjects.contains filename) = false := by
      cases hm with
      | inl h => rw [h]; rfl
      | inr h => rw [h, Bool.and_false]
    have hdl : (!(w.minioOk && w.minioObjects.contains filename) &&
        w.localFiles.contains (pyJoin (fallbackDir env) filename)) = true := by
      rw [hdm, hl]; rfl
    refine ⟨?_, ?_, ?_⟩
    · show ((w.minioOk && w.minioObjects.contains filename) ||
          (!(w.minioOk && w.minioObjects.contains filename) &&
            w.localFiles.contains (pyJoin (fallbackDir env) filename))) = true
      rw [hdm, hl]; rfl
    · show (if (!(w.minioOk && w.minioObjects.contains filename) &&
            w.localFiles.contains (pyJoin (fallbackDir env) filename)) = true
          then w.localFiles.erase (pyJoin (fallbackDir env) filename)
          else w.localFiles) =
        w.localFiles.erase (pyJoin (fallbackDir env) filename)
      rw [hdl]
      rfl
    · intro hdb r hr hloc
      have hrows : (delete_backup env w filename).dbRows =
          w.dbRows.filter (fun r =>
            ¬ (r.storageLocation = deleteS3Loc env filename ∨
               r.storageLocation = deleteLocalLoc env filename)) := by
        simp [delete_backup, hdb]
      rw [hrows, List.mem_filter]
      rintro ⟨-, hpred⟩
      simp only [decide_eq_true_eq] at hpred
      exact hpred (Or.inr (by rw [hloc]; rfl))

/-- Witness for C6: deleting an identifier present only in the fallback
store removes the file and purges the row bearing its creation-time
fallback-style location. -/
theorem delete_backup_purge_semantics_witness :
    (delete_backup ⟨none, none, none, none, none⟩
        ⟨true, [], ["/fallback/backup_db_20240101_000000.dump"], true,
          [⟨7, "/fallback/backup_db_20240101_000000.dump"⟩]⟩
        "backup_db_20240101_000000.dump").deletedFromStorage = true ∧
    (⟨7, "/fallback/backup_db_20240101_000000.dump"⟩ : MetaRow) ∉
      (delete_backup ⟨none, none, none, none, none⟩
        ⟨true, [], ["/fallback/backup_db_20240101_000000.dump"], true,
          [⟨7, "/fallback/backup_db_20240101_000000.dump"⟩]⟩
        "backup_db_20240101_000000.dump").dbRows := by
  have h := (delete_backup_purge_semantics ⟨none, none, none, none, none⟩
      ⟨true, [], ["/fallback/backup_db_20240101_000000.dump"], true,
        [⟨7, "/fallback/backup_db_20240101_000000.dump"⟩]⟩
      "backup_db_20240101_000000.dump").2 (Or.inr (by decide)) (by decide)
  exact ⟨h.1, h.2.2 rfl ⟨7, "/fallback/backup_db_20240101_000000.dump"⟩
    (by decide) (by decide)⟩

/-- C6 counterexample: the physical object of identifier
`mydb/backup_mydb_20240101_000000.dump` is deleted from the primary store,
yet the metadata row whose `storage_location` is exactly the creation-time
primary-style encoding `s3://mydb/backup_mydb_20240101_000000.dump`
survives the purge, because deletion searches for
`s3://backups/mydb/backup_mydb_20240101_000000.dump` instead. -/
theorem delete_primary_metadata_not_purged :
    (⟨1, "s3://mydb/backup_mydb_20240101_000000.dump"⟩ : MetaRow).storageLocation =
      primaryCreationLoc "mydb/backup_mydb_20240101_000000.dump" ∧
    (delete_backup ⟨none, none, none, none, none⟩
        ⟨true, ["mydb/backup_mydb_20240101_000000.dump"], [], true,
          [⟨1, "s3://mydb/backup_mydb_20240101_000000.dump"⟩]⟩
        "mydb/backup_mydb_20240101_000000.dump").deletedFromStorage = true ∧
    (⟨1, "s3://mydb/backup_mydb_20240101_000000.dump"⟩ : MetaRow) ∈
      (delete_backup ⟨none, none, none, none, none⟩
        ⟨true, ["mydb/backup_mydb_20240101_000000.dump"], [], true,
          [⟨1, "s3://mydb/backup_mydb_20240101_000000.dump"⟩]⟩
        "mydb/backup_mydb_20240101_000000.dump").dbRows := by
  decide

/-- C7 amended: the listing is a permutation of the accumulated records laid
out descending by the key `(created_at or "9999-99-99", backup_name)`; the
sentinel is lexicographically largest, so records lacking a creation
timestamp come FIRST, and ties on the timestamp are broken by backup name
descending. -/
theorem list_backups_sorted
    (minioListing : Except String (List MinioObj))
    (localListing : Except String (List String)) (dir : String)
    (sizeOf? : String → Option Nat) (dbFilter : Option String) :
    List.Sorted recDescRel
        (list_backups minioListing localListing dir sizeOf? dbFilter) ∧
    (list_backups minioListing localListing dir sizeOf? dbFilter).Perm
      (listBackupsRaw minioListing localListing dir sizeOf? dbFilter) := by
  constructor
  · exact @List.sorted_insertionSort _ recDescRel _ ⟨recDescRel_total⟩
      ⟨recDescRel_trans⟩ _
  · exact List.perm_insertionSort recDescRel _

/-- C7 counterexample: a record lacking a creation timestamp is sorted
first, not last — the sentinel `"9999-99-99"` is the largest key and the
sort is descending. -/
theorem list_backups_missing_timestamp_first :
    list_backups
        (.ok [⟨"db/backup_db_20240102_000000.dump", some "2024-01-02T00:00:00", some 5⟩,
              ⟨"db/backup_db_20240103_000000.dump", none, some 6⟩])
        (.ok []) "/fallback" (fun _ => none) none =
      [⟨"db/backup_db_20240103_000000.dump", "db", "backup_db_20240103_000000.dump",
         "minio", "s3://db/backup_db_20240103_000000.dump", none, some 6, "completed"⟩,
       ⟨"db/backup_db_20240102_000000.dump", "db", "backup_db_20240102_000000.dump",
         "minio", "s3://db/backup_db_20240102_000000.dump",
         some "2024-01-02T00:00:00", some 5, "completed"⟩] ∧
    (list_backups
        (.ok [⟨"db/backup_db_20240102_000000.dump", some "2024-01-02T00:00:00", some 5⟩,
              ⟨"db/backup_db_20240103_000000.dump", none, some 6⟩])
        (.ok []) "/fallback" (fun _ => none) none).map (fun r => r.createdAt) =
      [none, some "2024-01-02T00:00:00"] := by
  decide

end DBguardian
